import Mathlib

/-!
Verification development for the quick-ai-text-editor selection/popup
coordination engine.  The definitions below are shallow embeddings of the
TypeScript source: pure functions model the handlers, and records model the
mutable React/ref state they read and write.  File references use the
repository paths (src/app/...).
-/

namespace QuickAI

/-! ## Data model (src/app/types/editor.types.ts, PersistentHighlight.tsx) -/

/-- Maximum number of actions to keep in history
(src/app/types/editor.types.ts, MAX_ACTION_HISTORY). -/
def MAX_ACTION_HISTORY : Nat := 10

/-- An action history item (src/app/types/editor.types.ts, ActionHistoryItem).
Actions and model names are strings, as in the source (AIAction and
GeminiModel are string-union types; the empty string is the close-popup
signal). -/
structure ActionHistoryItem where
  action : String
  instructions : String
  timestamp : Nat
  modelName : String
deriving Repr, DecidableEq

/-- A persistent highlight
(src/app/components/editor/extensions/PersistentHighlight.tsx, Highlight):
a character range plus a style class.  The source field names from/to/class
are Lean keywords, so they are spelled hFrom/hTo/cls here. -/
structure Highlight where
  hFrom : Nat
  hTo : Nat
  cls : String
deriving Repr, DecidableEq

/-- An inline decoration produced by the PersistentHighlight ProseMirror
plugin (Decoration.inline(from, to, class)). -/
structure Decoration where
  dFrom : Nat
  dTo : Nat
  cls : String
deriving Repr, DecidableEq

/-! ## useActionHistory (src/app/components/editor/hooks/useActionHistory.ts)

addActionToHistory builds the new item, prepends it and truncates to
MAX_ACTION_HISTORY.  The state updater is modelled as a pure function from
the previous history to the new history; Date.now() is passed in as the
timestamp argument. -/

/-- addActionToHistory
(src/app/components/editor/hooks/useActionHistory.ts, lines 25-63).
If the action is empty it is the close-popup signal and the history is left
unchanged; otherwise the new item is prepended and the list is truncated to
MAX_ACTION_HISTORY when it exceeds the bound. -/
def addActionToHistory (action instructions modelName : String) (timestamp : Nat)
    (prevHistory : List ActionHistoryItem) : List ActionHistoryItem :=
  if action = "" then prevHistory
  else
    let newItem : ActionHistoryItem :=
      { action := action, instructions := instructions,
        timestamp := timestamp, modelName := modelName }
    let updatedHistory := newItem :: prevHistory
    if updatedHistory.length > MAX_ACTION_HISTORY then
      updatedHistory.take MAX_ACTION_HISTORY
    else
      updatedHistory

/-! ## highlightUtils (src/app/utils/highlightUtils.ts) and the
PersistentHighlight decoration renderer
(src/app/components/editor/extensions/PersistentHighlight.tsx) -/

/-- addHighlight (src/app/utils/highlightUtils.ts, lines 7-33), restricted to
its effect on the stored highlight list: a degenerate range (from === to)
returns early, otherwise the highlight is appended. -/
def addHighlight (hFrom hTo : Nat) (highlightClass : String)
    (highlights : List Highlight) : List Highlight :=
  if hFrom = hTo then highlights
  else highlights ++ [{ hFrom := hFrom, hTo := hTo, cls := highlightClass }]

/-- clearAllHighlights (src/app/utils/highlightUtils.ts, lines 53-68):
the stored highlight list becomes empty. -/
def clearAllHighlights (_highlights : List Highlight) : List Highlight := []

/-- The decoration pass of the PersistentHighlight plugin
(src/app/components/editor/extensions/PersistentHighlight.tsx,
addProseMirrorPlugins, lines 92-122): each stored highlight is turned into an
inline decoration, skipping highlights with from === to. -/
def decorationsOf (highlightClass : String) (highlights : List Highlight) :
    List Decoration :=
  highlights.filterMap fun h =>
    if h.hFrom = h.hTo then none
    else some { dFrom := h.hFrom, dTo := h.hTo,
                cls := if h.cls = "" then highlightClass else h.cls }

/-! ## ActionDispatcher: handleAIAction
(src/app/components/TextSelectionPopup.tsx, lines 88-167) composed with the
container callback handleActionPerformed
(src/app/components/editor/core/EditorContainer.tsx, lines 48-78).

The editor document is modelled as a list of characters with a selection
range; the transformation collaborator outcome is an explicit datum
(resolved string or rejection), since the only await point of handleAIAction
is the transformText call.  JavaScript truthiness of the result means an
empty resolved string takes the failure branch. -/

/-- Outcome of the transformText collaborator call: the promise resolves
with a string, or it rejects/throws. -/
inductive TransformOutcome where
  | resolved (s : List Char)
  | rejected
deriving Repr, DecidableEq

/-- The slice of editor state handleAIAction reads and writes: the document
text, the selection range, and the persistentHighlight extension storage. -/
structure EditorState where
  doc : List Char
  selFrom : Nat
  selTo : Nat
  highlights : List Highlight
deriving Repr, DecidableEq

/-- editor.state.doc.textBetween(from, to): the characters of the document
between the two offsets. -/
def textBetween (doc : List Char) (a b : Nat) : List Char :=
  (doc.drop a).take (b - a)

/-- An entry appended by logEditHistory
(src/app/services, invoked from handleAIAction). -/
structure EditLogEntry where
  originalText : List Char
  newText : List Char
  action : String
  instructions : String
  modelName : String
deriving Repr, DecidableEq

/-- The container state touched by handleActionPerformed
(src/app/components/editor/core/EditorContainer.tsx): popup visibility, the
AI-processing flag, the action history and the ChangeTracker suppression
flag set through ignoreNextChange(). -/
structure ContainerState where
  showPopup : Bool
  isAiProcessing : Bool
  actionHistory : List ActionHistoryItem
  ignoreNextChange : Bool
deriving Repr, DecidableEq

/-- handleActionPerformed
(src/app/components/editor/core/EditorContainer.tsx, lines 48-78).
An empty action is the close-popup signal; the STARTING/COMPLETED
instruction markers toggle the AI-processing flag; otherwise the
suppression flag is set and the action is added to the history.  The
COMPLETED branch clears the flag through a 500ms timeout; the model applies
that delayed write directly, which is its effect once the timer fires. -/
def handleActionPerformed (action instructions modelName : String)
    (timestamp : Nat) (st : ContainerState) : ContainerState :=
  if action = "" then { st with showPopup := false }
  else if instructions = "STARTING" then { st with isAiProcessing := true }
  else if instructions = "COMPLETED" then { st with isAiProcessing := false }
  else
    { st with
      ignoreNextChange := true,
      actionHistory :=
        addActionToHistory action instructions modelName timestamp
          st.actionHistory }

/-- Result of one full handleAIAction invocation: the editor state, the
container state, the edit-history log, and whether a user-visible error
alert was raised. -/
structure InvocationResult where
  editor : EditorState
  container : ContainerState
  editLog : List EditLogEntry
  errorAlert : Bool
deriving Repr, DecidableEq

/-- handleAIAction (src/app/components/TextSelectionPopup.tsx, lines 88-167)
together with the handleActionPerformed container callback, up to but not
including the close signal scheduled in the finally block.  On a truthy
result: deleteSelection removes the selected range (leaving the cursor at
the selection start), insertContent inserts the result there,
setTextSelection selects [insertPos, insertPos + result.length), the
persistent highlights are cleared, logEditHistory appends one entry, and
onActionPerformed adds the action to the container history.  On a falsy
result or a rejection nothing is mutated and an alert is shown. -/
def handleAIAction (action instructions modelName : String) (timestamp : Nat)
    (outcome : TransformOutcome) (ed : EditorState) (ct : ContainerState)
    (editLog : List EditLogEntry) : InvocationResult :=
  let originalText := textBetween ed.doc ed.selFrom ed.selTo
  match outcome with
  | TransformOutcome.resolved result =>
    if result ≠ [] then
      let docAfterDelete := ed.doc.take ed.selFrom ++ ed.doc.drop ed.selTo
      let insertPos := ed.selFrom
      let docAfterInsert :=
        docAfterDelete.take insertPos ++ result ++ docAfterDelete.drop insertPos
      let newFrom := insertPos
      let newTo := insertPos + result.length
      let ed' : EditorState :=
        { doc := docAfterInsert, selFrom := newFrom, selTo := newTo,
          highlights := [] }
      let entry : EditLogEntry :=
        { originalText := originalText, newText := result, action := action,
          instructions := instructions, modelName := modelName }
      { editor := ed',
        container := handleActionPerformed action instructions modelName
          timestamp ct,
        editLog := editLog ++ [entry],
        errorAlert := false }
    else
      { editor := ed, container := ct, editLog := editLog, errorAlert := true }
  | TransformOutcome.rejected =>
      { editor := ed, container := ct, editLog := editLog, errorAlert := true }

/-- The finally block of handleAIAction
(src/app/components/TextSelectionPopup.tsx, lines 157-166) schedules, 500ms
after every invocation, onActionPerformed with the empty action — the
close-popup signal.  This function is that scheduled callback delivered to
the container. -/
def deliverCloseSignal (modelName : String) (timestamp : Nat)
    (r : InvocationResult) : InvocationResult :=
  { r with container :=
      handleActionPerformed "" "" modelName timestamp r.container }

/-- One complete ActionDispatcher invocation including the close signal the
finally block schedules unconditionally (success and failure alike). -/
def runInvocation (action instructions modelName : String) (timestamp : Nat)
    (outcome : TransformOutcome) (ed : EditorState) (ct : ContainerState)
    (editLog : List EditLogEntry) : InvocationResult :=
  deliverCloseSignal modelName timestamp
    (handleAIAction action instructions modelName timestamp outcome ed ct
      editLog)

/-! ## ChangeTracker
(src/app/components/editor/hooks/useTextChangeTracking.ts, handleUpdate,
lines 56-82).  The ref state is the TextChangeTracker record; the debounce
timer is modelled as an optional pending check carrying the content the
closure captured.  Emissions are the onContentChange notifications. -/

/-- The TextChangeTracker ref state
(src/app/types/editor.types.ts, TextChangeTracker).  The changeTimer holds
the debounce delay and the content captured by the scheduled closure. -/
structure TrackerState where
  previousContent : List Char
  changeTimer : Option (Nat × List Char)
  isTracking : Bool
  ignoreNextChange : Bool
deriving Repr, DecidableEq

/-- handleUpdate
(src/app/components/editor/hooks/useTextChangeTracking.ts, lines 56-82).
If the suppression flag is set it is cleared and previousContent is updated
silently (early return: no notification, no new timer).  If tracking is off
nothing happens.  Otherwise any existing debounce timer is replaced by a new
one capturing the current content.  The second component lists the
onContentChange notifications emitted synchronously by this call (always
none: notification only happens when the timer fires). -/
def handleUpdate (debounceTime : Nat) (currentContent : List Char)
    (t : TrackerState) : TrackerState × List (List Char) :=
  if t.ignoreNextChange then
    ({ t with ignoreNextChange := false, previousContent := currentContent },
     [])
  else if ¬ t.isTracking then (t, [])
  else
    ({ t with changeTimer := some (debounceTime, currentContent) }, [])

/-- Firing of the debounce timer scheduled by handleUpdate: the scheduled
closure notifies onContentChange and updates previousContent only if the
captured content differs from previousContent at fire time. -/
def fireChangeTimer (t : TrackerState) : TrackerState × List (List Char) :=
  match t.changeTimer with
  | none => (t, [])
  | some (_, content) =>
    if content ≠ t.previousContent then
      ({ t with previousContent := content, changeTimer := none }, [content])
    else
      ({ t with changeTimer := none }, [])

/-! ## Selection handling
(src/app/components/editor/hooks/useSelectionHandling.ts).

The handlers read DOM/editor facts (current range, collapsed flag, popup
focus containment, validity, bounding rectangle); these are bundled into an
environment record sampled at call time.  Timers are modelled explicitly:
each live timer carries a fresh identifier, and the three timer refs of the
hook are kept as the source keeps them — selectionCheckTimer as a single
clearable ref, while the show timeout (selectionEndTimeout) and the hide
timeout (popupTimeoutRef) refs are overwritten without clearing the
previously scheduled timeout, so every scheduled one stays live until it
fires.  Commands record the synchronous onShowPopup / clearAllHighlights
calls. -/

/-- A selection range as returned by getSelectionRange. -/
structure SelRange where
  rFrom : Nat
  rTo : Nat
deriving Repr, DecidableEq

/-- A bounding rectangle as returned by getSelectionRect. -/
structure Rect where
  width : Nat
  height : Nat
deriving Repr, DecidableEq

/-- The DOM/editor facts checkSelectionForPopup samples at call time. -/
structure SelEnv where
  range : Option SelRange
  selectionCollapsed : Bool
  popupContainsActive : Bool
  validForPopup : Bool
  rect : Option Rect
deriving Repr, DecidableEq

/-- Synchronous commands issued by the selection handlers. -/
inductive SelCmd where
  | showPopup
  | hidePopup
  | clearHighlights
deriving Repr, DecidableEq

/-- The kinds of timers scheduled by useSelectionHandling: the debounced
selection check (selectionCheckTimer), the delayed popup show
(selectionEndTimeout) and the delayed hide-and-clear (popupTimeoutRef). -/
inductive TimerKind where
  | selectionCheck
  | showTimer
  | hideTimer
deriving Repr, DecidableEq

/-- A live scheduled timer: identifier, kind and delay in milliseconds. -/
structure LiveTimer where
  id : Nat
  kind : TimerKind
  delay : Nat
deriving Repr, DecidableEq

/-- The ref state of useSelectionHandling: gesture flags, the id held by the
selectionCheckTimer ref, and all currently live timers (a timeout stays
live until it fires or is cleared through clearTimeout on a ref that still
holds its id). -/
structure SelState where
  isSelecting : Bool
  isDragging : Bool
  selectionCheckTimer : Option Nat
  liveTimers : List LiveTimer
  nextId : Nat
deriving Repr, DecidableEq

/-- Removal of a cleared timeout from the live-timer list (clearTimeout). -/
def clearTimer (timerId : Nat) (timers : List LiveTimer) : List LiveTimer :=
  timers.filter fun t => t.id ≠ timerId

/-- Result of one synchronous handler run: the new ref/timer state and the
commands issued synchronously. -/
structure SelResult where
  state : SelState
  cmds : List SelCmd
deriving Repr, DecidableEq

/-- The clearTimeout performed on the selectionCheckTimer ref at the top of
checkSelectionForPopup and in handleSelectionChange: the stored timeout, if
any, is cancelled and the ref nulled. -/
def clearPendingCheckTimer (st : SelState) : SelState :=
  match st.selectionCheckTimer with
  | some tid =>
      { st with selectionCheckTimer := none,
                liveTimers := clearTimer tid st.liveTimers }
  | none => st

/-- A setTimeout call: a fresh timer of the given kind and delay becomes
live; nothing already live is cancelled. -/
def scheduleTimer (k : TimerKind) (d : Nat) (st : SelState) : SelState :=
  { st with
    liveTimers := st.liveTimers ++ [{ id := st.nextId, kind := k, delay := d }],
    nextId := st.nextId + 1 }

/-- checkSelectionForPopup
(src/app/components/editor/hooks/useSelectionHandling.ts, lines 21-92).
The pending selection-check timer is cleared first.  With no valid
non-collapsed selection: if the popup contains the active element nothing
happens, otherwise a 300ms hide timeout is scheduled (the popupTimeoutRef
is overwritten without clearing the previous timeout).  With a valid
selection: if a gesture (isSelecting or isDragging) is active, or the
bounding rectangle is missing or degenerate, nothing happens; otherwise a
100ms show timeout is scheduled (again overwriting the selectionEndTimeout
ref without clearing the previous timeout).  If the selection is
non-collapsed but not valid for the popup, the popup is hidden and the
highlights cleared synchronously. -/
def checkSelectionForPopup (env : SelEnv) (st : SelState) : SelResult :=
  if env.selectionCollapsed ∨ env.range = none then
    if env.popupContainsActive then
      { state := clearPendingCheckTimer st, cmds := [] }
    else
      { state := scheduleTimer TimerKind.hideTimer 300
          (clearPendingCheckTimer st),
        cmds := [] }
  else if env.validForPopup then
    if st.isSelecting ∨ st.isDragging then
      { state := clearPendingCheckTimer st, cmds := [] }
    else
      match env.rect with
      | none => { state := clearPendingCheckTimer st, cmds := [] }
      | some rect =>
        if rect.width = 0 ∨ rect.height = 0 then
          { state := clearPendingCheckTimer st, cmds := [] }
        else
          { state := scheduleTimer TimerKind.showTimer 100
              (clearPendingCheckTimer st),
            cmds := [] }
  else
    { state := clearPendingCheckTimer st,
      cmds := [SelCmd.hidePopup, SelCmd.clearHighlights] }

/-- handleSelectionChange
(src/app/components/editor/hooks/useSelectionHandling.ts, lines 95-113).
While a gesture is active the check is deferred entirely; otherwise the
pending selection-check timer is cleared and a new one is scheduled with a
150ms delay, its id stored back in the selectionCheckTimer ref. -/
def handleSelectionChange (st : SelState) : SelResult :=
  if st.isSelecting ∨ st.isDragging then
    { state := st, cmds := [] }
  else
    { state :=
        { scheduleTimer TimerKind.selectionCheck 150
            (clearPendingCheckTimer st) with
          selectionCheckTimer := some st.nextId },
      cmds := [] }

/-- handleDragStart
(src/app/components/editor/hooks/useSelectionHandling.ts, lines 187-195):
the drag flag is raised and the popup hidden synchronously. -/
def handleDragStart (st : SelState) : SelResult :=
  { state := { st with isDragging := true }, cmds := [SelCmd.hidePopup] }

/-- handleMouseUp
(src/app/components/editor/hooks/useSelectionHandling.ts, lines 171-184):
the mouse-up timestamp is recorded, the isSelecting flag is lowered, and a
plain 150ms timeout is scheduled to run checkSelectionForPopup; no popup is
shown synchronously. -/
def handleMouseUp (st : SelState) : SelResult :=
  { state :=
      { st with
        isSelecting := false,
        liveTimers := st.liveTimers ++
          [{ id := st.nextId, kind := TimerKind.selectionCheck, delay := 150 }],
        nextId := st.nextId + 1 },
    cmds := [] }

/-- handleDragEnd
(src/app/components/editor/hooks/useSelectionHandling.ts, lines 198-209):
the isDragging flag is lowered and a plain 200ms timeout is scheduled to
run checkSelectionForPopup; no popup is shown synchronously. -/
def handleDragEnd (st : SelState) : SelResult :=
  { state :=
      { st with
        isDragging := false,
        liveTimers := st.liveTimers ++
          [{ id := st.nextId, kind := TimerKind.selectionCheck, delay := 200 }],
        nextId := st.nextId + 1 },
    cmds := [] }

/-- The callback of a fired show timeout
(src/app/components/editor/hooks/useSelectionHandling.ts, lines 84-86):
it calls onShowPopup(true) unconditionally — no precondition is
re-validated at fire time. -/
def fireShowTimer : List SelCmd := [SelCmd.showPopup]

/-- The callback of a fired hide timeout
(src/app/components/editor/hooks/useSelectionHandling.ts, lines 55-58):
it calls onShowPopup(false) and clearAllHighlights unconditionally. -/
def fireHideTimer : List SelCmd := [SelCmd.hidePopup, SelCmd.clearHighlights]

/-- The live timers of a given kind. -/
def timersOfKind (k : TimerKind) (st : SelState) : List LiveTimer :=
  st.liveTimers.filter fun t => t.kind = k

/-! ## Editor component highlight-validity check (src/unnamed/part_001)

The monolithic Editor component keeps the selection range, the selected
text, the popup flag and the single persistent highlight together; its
onUpdate callback (lines 418-443) drops them all when the stored range is no
longer valid for the current document size. -/

/-- The slice of the part_001 Editor component state read and written by the
highlight-validity check in onUpdate. -/
structure EditorComponentState where
  showPopup : Bool
  selectionRange : Option SelRange
  highlights : List Highlight
  selectedText : List Char
  hasSelectionCoords : Bool
deriving Repr, DecidableEq

/-- The highlight-validity check of onUpdate
(src/unnamed/part_001, lines 418-434): when the transaction changed the
document and a selection range is stored, the range is compared against the
document size; if from >= docSize, or to > docSize, or from === to, the
popup is hidden, the persistent highlight cleared, and the stored
range/text/coords reset.  Otherwise this part of onUpdate leaves the state
alone. -/
def onUpdateValidityCheck (docChanged : Bool) (docSize : Nat)
    (st : EditorComponentState) : EditorComponentState :=
  if docChanged then
    match st.selectionRange with
    | some r =>
      if r.rFrom ≥ docSize ∨ r.rTo > docSize ∨ r.rFrom = r.rTo then
        { showPopup := false, selectionRange := none, highlights := [],
          selectedText := [], hasSelectionCoords := false }
      else st
    | none => st
  else st

/-! ## EditorContainer keyboard handling
(src/app/components/editor/core/EditorContainer.tsx,
handleKeyboardShortcut, lines 269-278): the branch for the Escape key. -/

/-- The slice of EditorContainer state visible to the Escape branch of
handleKeyboardShortcut: the popup flag and the persistent highlight
storage the clearAllHighlights utility empties. -/
structure KeyboardState where
  showPopup : Bool
  highlights : List Highlight
deriving Repr, DecidableEq

/-- The Escape branch of handleKeyboardShortcut
(src/app/components/editor/core/EditorContainer.tsx, lines 269-278): when
the editor is ready, pressing Escape calls clearAllHighlights(editor) and
returns — nothing else in the branch touches the popup state. -/
def pressEscape (editorReady : Bool) (st : KeyboardState) : KeyboardState :=
  if editorReady then
    { st with highlights := clearAllHighlights st.highlights }
  else st

/-! ## Concrete data used by witnesses and counterexamples -/

/-- A full action history of MAX_ACTION_HISTORY items. -/
def historyTen : List ActionHistoryItem :=
  (List.range MAX_ACTION_HISTORY).map fun k =>
    { action := "summarize", instructions := "", timestamp := k,
      modelName := "gemini-2.0-flash" }

/-- A highlight list holding one proper and one degenerate range. -/
def highlightPairW : List Highlight :=
  [{ hFrom := 1, hTo := 4, cls := "highlight-yellow" },
   { hFrom := 2, hTo := 2, cls := "" }]

/-- A concrete editor state: a five-character document with offsets 1-4
selected. -/
def edW : EditorState :=
  { doc := ['a', 'b', 'c', 'd', 'e'], selFrom := 1, selTo := 4,
    highlights := [{ hFrom := 1, hTo := 4, cls := "highlight-yellow" }] }

/-- A concrete container state with a visible popup and empty history. -/
def ctW : ContainerState :=
  { showPopup := true, isAiProcessing := false, actionHistory := [],
    ignoreNextChange := false }

/-- A concrete environment in which the popup-show gate is satisfied. -/
def envW : SelEnv :=
  { range := some { rFrom := 2, rTo := 8 }, selectionCollapsed := false,
    popupContainsActive := false, validForPopup := true,
    rect := some { width := 12, height := 5 } }

/-- A concrete quiescent selection-handling state with no live timers. -/
def stW : SelState :=
  { isSelecting := false, isDragging := false, selectionCheckTimer := none,
    liveTimers := [], nextId := 0 }

/-- A concrete selection-handling state with one stored pending
selection-check timeout. -/
def stW6 : SelState :=
  { isSelecting := false, isDragging := false,
    selectionCheckTimer := some 0,
    liveTimers := [{ id := 0, kind := TimerKind.selectionCheck, delay := 150 }],
    nextId := 1 }

/-! ## Helper lemmas -/

/-- For a non-empty action, addActionToHistory always produces the new item
followed by the first MAX_ACTION_HISTORY - 1 entries of the previous
history. -/
theorem addActionToHistory_eq_cons (action instructions modelName : String)
    (timestamp : Nat) (prev : List ActionHistoryItem) (hact : action ≠ "") :
    addActionToHistory action instructions modelName timestamp prev =
      { action := action, instructions := instructions,
        timestamp := timestamp, modelName := modelName }
        :: prev.take (MAX_ACTION_HISTORY - 1) := by
  rw [addActionToHistory, if_neg hact]
  by_cases h : prev.length + 1 > MAX_ACTION_HISTORY
  · rw [if_pos (by simpa using h)]
    rfl
  · rw [if_neg (by simpa using h)]
    have hle : prev.length ≤ MAX_ACTION_HISTORY - 1 := by
      unfold MAX_ACTION_HISTORY at h ⊢
      omega
    rw [List.take_of_length_le hle]

/-- Clearing a timeout only removes timers. -/
theorem mem_of_mem_clearTimer (timerId : Nat) (timers : List LiveTimer)
    (t : LiveTimer) (ht : t ∈ clearTimer timerId timers) : t ∈ timers :=
  (List.mem_filter.mp ht).1

/-- textBetween over a spliced document returns exactly the inserted
segment. -/
theorem textBetween_splice (X Y result : List Char) (a : Nat)
    (hX : X.length = a) :
    textBetween (X ++ result ++ Y) a (a + result.length) = result := by
  subst hX
  rw [textBetween, List.append_assoc, List.drop_left,
    Nat.add_sub_cancel_left, List.take_left]

/-- A timer surviving a clearTimeout does not carry the cleared id. -/
theorem ne_of_mem_clearTimer (timerId : Nat) (timers : List LiveTimer)
    (t : LiveTimer) (ht : t ∈ clearTimer timerId timers) : t.id ≠ timerId := by
  have h := (List.mem_filter.mp ht).2
  simpa using h

/-- Clearing the pending selection-check timeout only removes live
timers. -/
theorem mem_of_mem_clearPendingCheckTimer (st : SelState) (t : LiveTimer)
    (ht : t ∈ (clearPendingCheckTimer st).liveTimers) : t ∈ st.liveTimers := by
  unfold clearPendingCheckTimer at ht
  cases hsc : st.selectionCheckTimer with
  | none => rw [hsc] at ht; exact ht
  | some tid => rw [hsc] at ht; exact mem_of_mem_clearTimer tid _ t ht

/-- Membership in the timers of a scheduleTimer call: either an already
live timer or the freshly scheduled one. -/
theorem mem_scheduleTimer (k : TimerKind) (d : Nat) (st : SelState)
    (t : LiveTimer) (ht : t ∈ (scheduleTimer k d st).liveTimers) :
    t ∈ st.liveTimers ∨ t = { id := st.nextId, kind := k, delay := d } := by
  unfold scheduleTimer at ht
  simpa using List.mem_append.mp ht

/-- Clearing the pending selection-check timeout does not change the
gesture flags or the id counter. -/
theorem clearPendingCheckTimer_fields (st : SelState) :
    (clearPendingCheckTimer st).isSelecting = st.isSelecting ∧
    (clearPendingCheckTimer st).isDragging = st.isDragging ∧
    (clearPendingCheckTimer st).nextId = st.nextId := by
  unfold clearPendingCheckTimer
  cases st.selectionCheckTimer <;> exact ⟨rfl, rfl, rfl⟩

/-- With no gesture active, handleSelectionChange clears the stored
selection-check timeout and schedules a fresh one, storing its id. -/
theorem handleSelectionChange_state (st : SelState)
    (hcond : ¬(st.isSelecting = true ∨ st.isDragging = true)) :
    (handleSelectionChange st).state =
      { isSelecting := st.isSelecting, isDragging := st.isDragging,
        selectionCheckTimer := some st.nextId,
        liveTimers := (clearPendingCheckTimer st).liveTimers ++
          [{ id := st.nextId, kind := TimerKind.selectionCheck, delay := 150 }],
        nextId := st.nextId + 1 } := by
  unfold handleSelectionChange
  rw [if_neg hcond]
  unfold scheduleTimer clearPendingCheckTimer
  cases hsc : st.selectionCheckTimer <;> rfl

/-- Receiving the empty-action close signal only hides the popup. -/
theorem handleActionPerformed_close (modelName : String) (timestamp : Nat)
    (ct : ContainerState) :
    handleActionPerformed "" "" modelName timestamp ct
      = { ct with showPopup := false } := by
  simp [handleActionPerformed]

/-- Receiving a real action with non-marker instructions sets the
suppression flag and appends to the action history. -/
theorem handleActionPerformed_action (action instructions modelName : String)
    (timestamp : Nat) (ct : ContainerState) (hact : action ≠ "")
    (hs : instructions ≠ "STARTING") (hc : instructions ≠ "COMPLETED") :
    handleActionPerformed action instructions modelName timestamp ct
      = { ct with
          ignoreNextChange := true,
          actionHistory :=
            addActionToHistory action instructions modelName timestamp
              ct.actionHistory } := by
  rw [handleActionPerformed, if_neg hact, if_neg hs, if_neg hc]

/-! ## Claim theorems -/

/-- C9: for every sequence of successful actions the action history holds at
most MAX_ACTION_HISTORY = 10 items, each append places the new item first
(newest-first order), the surviving existing items are exactly a front
segment of the previous history (never mutated), and when capacity is
exceeded the evicted item is the last — that is, the oldest — one. -/
theorem actionHistory_ring_buffer (action instructions modelName : String)
    (timestamp : Nat) (prev : List ActionHistoryItem)
    (hact : action ≠ "") (hlen : prev.length ≤ MAX_ACTION_HISTORY) :
    (addActionToHistory action instructions modelName timestamp prev).length
        ≤ MAX_ACTION_HISTORY ∧
    (addActionToHistory action instructions modelName timestamp prev).head?
        = some { action := action, instructions := instructions,
                 timestamp := timestamp, modelName := modelName } ∧
    (addActionToHistory action instructions modelName timestamp prev).tail
        = prev.take (MAX_ACTION_HISTORY - 1) ∧
    (prev.length = MAX_ACTION_HISTORY →
      (addActionToHistory action instructions modelName timestamp prev).tail
        = prev.dropLast) := by
  rw [addActionToHistory_eq_cons action instructions modelName timestamp prev
    hact]
  refine ⟨?_, rfl, rfl, ?_⟩
  · simp only [List.length_cons, List.length_take]
    unfold MAX_ACTION_HISTORY
    omega
  · intro hfull
    rw [List.dropLast_eq_take, hfull]
    rfl

/-- C9 witness: a concrete append onto a full history of ten items. -/
theorem actionHistory_ring_buffer_witness :
    (addActionToHistory "expand" "make it vivid" "gemini-2.0-flash" 42
        historyTen).length ≤ MAX_ACTION_HISTORY ∧
    (addActionToHistory "expand" "make it vivid" "gemini-2.0-flash" 42
        historyTen).head?
      = some { action := "expand", instructions := "make it vivid",
               timestamp := 42, modelName := "gemini-2.0-flash" } ∧
    (addActionToHistory "expand" "make it vivid" "gemini-2.0-flash" 42
        historyTen).tail = historyTen.take (MAX_ACTION_HISTORY - 1) ∧
    (historyTen.length = MAX_ACTION_HISTORY →
      (addActionToHistory "expand" "make it vivid" "gemini-2.0-flash" 42
        historyTen).tail = historyTen.dropLast) :=
  actionHistory_ring_buffer "expand" "make it vivid" "gemini-2.0-flash" 42
    historyTen (by decide) (by decide)

/-- C10: a degenerate range is never added (addHighlight with from = to
leaves the highlight set unchanged) and the decoration renderer never
produces a zero-width decoration. -/
theorem degenerate_highlight_never_added_or_rendered (p : Nat)
    (c hc : String) (l : List Highlight) (d : Decoration) :
    addHighlight p p c l = l ∧
    (d ∈ decorationsOf hc l → d.dFrom ≠ d.dTo) := by
  constructor
  · simp [addHighlight]
  · intro hd
    rcases List.mem_filterMap.mp hd with ⟨h, -, hfh⟩
    by_cases heq : h.hFrom = h.hTo
    · rw [if_pos heq] at hfh
      cases hfh
    · rw [if_neg heq] at hfh
      injection hfh with hdd
      subst hdd
      exact heq

/-- C10 witness: a concrete highlight list holding one degenerate and one
proper range; the rendered decoration for the proper range is not
zero-width. -/
theorem degenerate_highlight_witness :
    addHighlight 3 3 "highlight-yellow" highlightPairW = highlightPairW ∧
    ({ dFrom := 1, dTo := 4, cls := "highlight-yellow" } : Decoration).dFrom
      ≠ ({ dFrom := 1, dTo := 4,
           cls := "highlight-yellow" } : Decoration).dTo :=
  ⟨(degenerate_highlight_never_added_or_rendered 3 "highlight-yellow"
      "highlight-yellow" highlightPairW
      { dFrom := 1, dTo := 4, cls := "highlight-yellow" }).1,
   (degenerate_highlight_never_added_or_rendered 3 "highlight-yellow"
      "highlight-yellow" highlightPairW
      { dFrom := 1, dTo := 4, cls := "highlight-yellow" }).2 (by decide)⟩

/-- C8 counterexample: with the popup visible, pressing Escape clears the
highlights but leaves the popup visible — the Escape branch of
handleKeyboardShortcut never writes the popup flag, refuting the claim
that Escape transitions the popup to hidden from any state. -/
theorem escape_keeps_popup_visible_counterexample :
    (pressEscape true
      { showPopup := true,
        highlights :=
          [{ hFrom := 1, hTo := 5, cls := "highlight-yellow" }] }).showPopup
        = true ∧
    (pressEscape true
      { showPopup := true,
        highlights :=
          [{ hFrom := 1, hTo := 5, cls := "highlight-yellow" }] }).highlights
        = [] := by
  decide

/-- C8 amended: pressing Escape clears all highlights but leaves the popup
visibility exactly as it was. -/
theorem escape_clears_highlights_only (st : KeyboardState) :
    (pressEscape true st).highlights = [] ∧
    (pressEscape true st).showPopup = st.showPopup := by
  simp [pressEscape, clearAllHighlights]

/-- C2 counterexample: a successful invocation starting from a visible
popup ends with the popup hidden — the finally block of handleAIAction
schedules the empty-action close signal unconditionally and
handleActionPerformed hides the popup on receiving it. -/
theorem invocation_hides_popup_counterexample :
    (runInvocation "expand" "" "gemini-2.0-flash" 7
        (TransformOutcome.resolved ['N', 'e', 'w'])
        { doc := ['O', 'l', 'd'], selFrom := 0, selTo := 3,
          highlights := [{ hFrom := 0, hTo := 3, cls := "highlight-yellow" }] }
        { showPopup := true, isAiProcessing := false, actionHistory := [],
          ignoreNextChange := false }
        []).container.showPopup = false ∧
    (runInvocation "expand" "" "gemini-2.0-flash" 7
        (TransformOutcome.resolved ['N', 'e', 'w'])
        { doc := ['O', 'l', 'd'], selFrom := 0, selTo := 3,
          highlights := [{ hFrom := 0, hTo := 3, cls := "highlight-yellow" }] }
        { showPopup := true, isAiProcessing := false, actionHistory := [],
          ignoreNextChange := false }
        []).errorAlert = false := by
  decide

/-- C2 amended: every ActionDispatcher invocation — success and failure
alike — ends with the popup hidden: the finally block schedules the
empty-action close signal and, once delivered, handleActionPerformed sets
the popup flag to false. -/
theorem invocation_always_ends_hidden (action instructions modelName : String)
    (timestamp : Nat) (outcome : TransformOutcome) (ed : EditorState)
    (ct : ContainerState) (editLog : List EditLogEntry) :
    (runInvocation action instructions modelName timestamp outcome ed ct
        editLog).container.showPopup = false := by
  simp [runInvocation, deliverCloseSignal, handleActionPerformed]

/-- C3: when the transformation collaborator rejects or throws, the
invocation is atomic: the document and selection are unchanged, no edit-log
entry and no action-history item are appended, and a user-visible error
alert is raised. -/
theorem failed_invocation_atomic (action instructions modelName : String)
    (timestamp : Nat) (outcome : TransformOutcome) (ed : EditorState)
    (ct : ContainerState) (editLog : List EditLogEntry)
    (h : outcome = TransformOutcome.rejected) :
    (runInvocation action instructions modelName timestamp outcome ed ct
        editLog).editor = ed ∧
    (runInvocation action instructions modelName timestamp outcome ed ct
        editLog).editLog = editLog ∧
    (runInvocation action instructions modelName timestamp outcome ed ct
        editLog).container.actionHistory = ct.actionHistory ∧
    (runInvocation action instructions modelName timestamp outcome ed ct
        editLog).errorAlert = true := by
  subst h
  simp [runInvocation, handleAIAction, deliverCloseSignal,
    handleActionPerformed]

/-- C3 witness: a concrete rejected invocation. -/
theorem failed_invocation_atomic_witness :
    (runInvocation "revise" "shorter" "gemini-2.0-flash" 9
        TransformOutcome.rejected
        { doc := ['O', 'l', 'd'], selFrom := 0, selTo := 3,
          highlights := [{ hFrom := 0, hTo := 3, cls := "highlight-yellow" }] }
        { showPopup := true, isAiProcessing := false, actionHistory := [],
          ignoreNextChange := false }
        []).editor
      = { doc := ['O', 'l', 'd'], selFrom := 0, selTo := 3,
          highlights :=
            [{ hFrom := 0, hTo := 3, cls := "highlight-yellow" }] } ∧
    (runInvocation "revise" "shorter" "gemini-2.0-flash" 9
        TransformOutcome.rejected
        { doc := ['O', 'l', 'd'], selFrom := 0, selTo := 3,
          highlights := [{ hFrom := 0, hTo := 3, cls := "highlight-yellow" }] }
        { showPopup := true, isAiProcessing := false, actionHistory := [],
          ignoreNextChange := false }
        []).editLog = [] ∧
    (runInvocation "revise" "shorter" "gemini-2.0-flash" 9
        TransformOutcome.rejected
        { doc := ['O', 'l', 'd'], selFrom := 0, selTo := 3,
          highlights := [{ hFrom := 0, hTo := 3, cls := "highlight-yellow" }] }
        { showPopup := true, isAiProcessing := false, actionHistory := [],
          ignoreNextChange := false }
        []).container.actionHistory
      = ({ showPopup := true, isAiProcessing := false, actionHistory := [],
           ignoreNextChange := false } : ContainerState).actionHistory ∧
    (runInvocation "revise" "shorter" "gemini-2.0-flash" 9
        TransformOutcome.rejected
        { doc := ['O', 'l', 'd'], selFrom := 0, selTo := 3,
          highlights := [{ hFrom := 0, hTo := 3, cls := "highlight-yellow" }] }
        { showPopup := true, isAiProcessing := false, actionHistory := [],
          ignoreNextChange := false }
        []).errorAlert = true :=
  failed_invocation_atomic "revise" "shorter" "gemini-2.0-flash" 9
    TransformOutcome.rejected
    { doc := ['O', 'l', 'd'], selFrom := 0, selTo := 3,
      highlights := [{ hFrom := 0, hTo := 3, cls := "highlight-yellow" }] }
    { showPopup := true, isAiProcessing := false, actionHistory := [],
      ignoreNextChange := false }
    [] rfl

/-- C4: when the suppression flag is set at the time the tracker examines a
content change, the flag is cleared, previousContent is silently updated to
the current content, no notification is emitted, and no debounce timer is
scheduled. -/
theorem suppressed_change_is_silent (debounceTime : Nat)
    (currentContent : List Char) (t : TrackerState)
    (h : t.ignoreNextChange = true) :
    handleUpdate debounceTime currentContent t
      = ({ t with ignoreNextChange := false,
                  previousContent := currentContent }, []) := by
  simp [handleUpdate, h]

/-- C4 witness: a concrete suppressed update. -/
theorem suppressed_change_is_silent_witness :
    handleUpdate 500 ['n', 'e', 'w']
        { previousContent := ['o', 'l', 'd'], changeTimer := none,
          isTracking := true, ignoreNextChange := true }
      = ({ previousContent := ['n', 'e', 'w'], changeTimer := none,
           isTracking := true, ignoreNextChange := false }, []) :=
  suppressed_change_is_silent 500 ['n', 'e', 'w']
    { previousContent := ['o', 'l', 'd'], changeTimer := none,
      isTracking := true, ignoreNextChange := true } rfl

/-- C7: when the stored highlight (coupled, as the component maintains it,
to the stored selection range) has become invalid for the current document
size — end past the document, start at or past the document, or collapsed —
the next highlight-validity check run by onUpdate on a document change
removes the highlight, hides the popup, and drops the stored range. -/
theorem stale_highlight_dropped (docSize : Nat) (st : EditorComponentState)
    (r : SelRange) (h : Highlight)
    (hsel : st.selectionRange = some r)
    (hcouple : st.highlights = [h])
    (hf : h.hFrom = r.rFrom) (ht : h.hTo = r.rTo)
    (hbad : h.hTo > docSize ∨ h.hFrom ≥ docSize ∨ h.hFrom = h.hTo) :
    (onUpdateValidityCheck true docSize st).highlights = [] ∧
    (onUpdateValidityCheck true docSize st).showPopup = false ∧
    (onUpdateValidityCheck true docSize st).selectionRange = none := by
  have hbad2 : r.rFrom ≥ docSize ∨ r.rTo > docSize ∨ r.rFrom = r.rTo := by
    rw [← hf, ← ht]
    tauto
  unfold onUpdateValidityCheck
  rw [if_pos rfl, hsel]
  dsimp only
  rw [if_pos hbad2]
  exact ⟨rfl, rfl, rfl⟩

/-- C7 witness: a document shrunk to size 2 under a highlight covering
offsets 1-5. -/
theorem stale_highlight_dropped_witness :
    (onUpdateValidityCheck true 2
        { showPopup := true, selectionRange := some { rFrom := 1, rTo := 5 },
          highlights := [{ hFrom := 1, hTo := 5, cls := "highlight-yellow" }],
          selectedText := ['q'], hasSelectionCoords := true }).highlights
      = [] ∧
    (onUpdateValidityCheck true 2
        { showPopup := true, selectionRange := some { rFrom := 1, rTo := 5 },
          highlights := [{ hFrom := 1, hTo := 5, cls := "highlight-yellow" }],
          selectedText := ['q'], hasSelectionCoords := true }).showPopup
      = false ∧
    (onUpdateValidityCheck true 2
        { showPopup := true, selectionRange := some { rFrom := 1, rTo := 5 },
          highlights := [{ hFrom := 1, hTo := 5, cls := "highlight-yellow" }],
          selectedText := ['q'], hasSelectionCoords := true }).selectionRange
      = none :=
  stale_highlight_dropped 2
    { showPopup := true, selectionRange := some { rFrom := 1, rTo := 5 },
      highlights := [{ hFrom := 1, hTo := 5, cls := "highlight-yellow" }],
      selectedText := ['q'], hasSelectionCoords := true }
    { rFrom := 1, rTo := 5 } { hFrom := 1, hTo := 5, cls := "highlight-yellow" }
    rfl rfl rfl rfl (by decide)

/-- C1 counterexample: a successful invocation whose user-typed additional
instructions happen to be the reserved marker string STARTING mutates the
document and appends an edit-log entry (the transformation succeeded), yet
handleActionPerformed treats the instructions as a processing marker and
appends nothing to the action history — refuting that exactly one
ActionHistoryItem is appended per successful invocation. -/
theorem success_marker_skips_history_counterexample :
    (runInvocation "expand" "STARTING" "gemini-2.0-flash" 7
        (TransformOutcome.resolved ['N', 'e', 'w']) edW ctW
        []).errorAlert = false ∧
    (runInvocation "expand" "STARTING" "gemini-2.0-flash" 7
        (TransformOutcome.resolved ['N', 'e', 'w']) edW ctW
        []).editLog.length = 1 ∧
    (runInvocation "expand" "STARTING" "gemini-2.0-flash" 7
        (TransformOutcome.resolved ['N', 'e', 'w']) edW ctW
        []).container.actionHistory = [] := by
  decide

/-- C1 amended: for a successful invocation whose instructions are not the
reserved STARTING/COMPLETED markers, exactly one ActionHistoryItem is
appended (it becomes the head and the previous history survives as the
tail, truncated to capacity), and the selection range set after the
replacement starts at the insertion position and spans exactly the newly
inserted text. -/
theorem success_invocation_bookkeeping (action instructions modelName : String)
    (timestamp : Nat) (result : List Char) (ed : EditorState)
    (ct : ContainerState) (editLog : List EditLogEntry)
    (hres : result ≠ []) (hact : action ≠ "")
    (hs : instructions ≠ "STARTING") (hc : instructions ≠ "COMPLETED")
    (hsel : ed.selFrom ≤ ed.selTo) (hdoc : ed.selTo ≤ ed.doc.length) :
    (runInvocation action instructions modelName timestamp
        (TransformOutcome.resolved result) ed ct
        editLog).container.actionHistory.head?
      = some { action := action, instructions := instructions,
               timestamp := timestamp, modelName := modelName } ∧
    (runInvocation action instructions modelName timestamp
        (TransformOutcome.resolved result) ed ct
        editLog).container.actionHistory.tail
      = ct.actionHistory.take (MAX_ACTION_HISTORY - 1) ∧
    (runInvocation action instructions modelName timestamp
        (TransformOutcome.resolved result) ed ct
        editLog).editor.selFrom = ed.selFrom ∧
    (runInvocation action instructions modelName timestamp
        (TransformOutcome.resolved result) ed ct
        editLog).editor.selTo = ed.selFrom + result.length ∧
    textBetween
      (runInvocation action instructions modelName timestamp
        (TransformOutcome.resolved result) ed ct editLog).editor.doc
      ed.selFrom (ed.selFrom + result.length) = result ∧
    (runInvocation action instructions modelName timestamp
        (TransformOutcome.resolved result) ed ct
        editLog).editLog.length = editLog.length + 1 := by
  have hX : ((ed.doc.take ed.selFrom ++ ed.doc.drop ed.selTo).take
      ed.selFrom).length = ed.selFrom := by
    simp only [List.length_take, List.length_append, List.length_drop]
    omega
  unfold runInvocation deliverCloseSignal handleAIAction
  dsimp only
  rw [if_pos hres]
  dsimp only
  rw [handleActionPerformed_close,
    handleActionPerformed_action action instructions modelName timestamp ct
      hact hs hc]
  dsimp only
  rw [addActionToHistory_eq_cons action instructions modelName timestamp
    ct.actionHistory hact]
  refine ⟨rfl, rfl, rfl, rfl, ?_, ?_⟩
  · exact textBetween_splice _ _ result ed.selFrom hX
  · simp

/-- C1 witness: a concrete successful invocation on a five-character
document with offsets 1-4 selected and a two-character result. -/
theorem success_invocation_bookkeeping_witness :
    (runInvocation "summarize" "" "gemini-2.0-flash" 3
        (TransformOutcome.resolved ['A', 'B']) edW ctW
        []).container.actionHistory.head?
      = some { action := "summarize", instructions := "",
               timestamp := 3, modelName := "gemini-2.0-flash" } ∧
    (runInvocation "summarize" "" "gemini-2.0-flash" 3
        (TransformOutcome.resolved ['A', 'B']) edW ctW
        []).container.actionHistory.tail
      = ctW.actionHistory.take (MAX_ACTION_HISTORY - 1) ∧
    (runInvocation "summarize" "" "gemini-2.0-flash" 3
        (TransformOutcome.resolved ['A', 'B']) edW ctW
        []).editor.selFrom = edW.selFrom ∧
    (runInvocation "summarize" "" "gemini-2.0-flash" 3
        (TransformOutcome.resolved ['A', 'B']) edW ctW
        []).editor.selTo = edW.selFrom + (['A', 'B'] : List Char).length ∧
    textBetween
      (runInvocation "summarize" "" "gemini-2.0-flash" 3
        (TransformOutcome.resolved ['A', 'B']) edW ctW []).editor.doc
      edW.selFrom (edW.selFrom + (['A', 'B'] : List Char).length)
      = ['A', 'B'] ∧
    (runInvocation "summarize" "" "gemini-2.0-flash" 3
        (TransformOutcome.resolved ['A', 'B']) edW ctW
        []).editLog.length = ([] : List EditLogEntry).length + 1 :=
  success_invocation_bookkeeping "summarize" "" "gemini-2.0-flash" 3
    ['A', 'B'] edW ctW [] (by decide) (by decide) (by decide) (by decide)
    (by decide) (by decide)

/-- C5 counterexample: a show timeout scheduled by a fully settled, valid
selection check is still live after a drag gesture starts (handleDragStart
raises isDragging without cancelling it), and its fired callback issues the
show command unconditionally — so the popup does become visible while a
drag gesture is in progress, refuting the claim that it never does. -/
theorem show_timer_fires_during_drag_counterexample :
    (handleDragStart
        (checkSelectionForPopup envW stW).state).state.isDragging = true ∧
    ({ id := 0, kind := TimerKind.showTimer, delay := 100 } : LiveTimer)
      ∈ (handleDragStart
          (checkSelectionForPopup envW stW).state).state.liveTimers ∧
    fireShowTimer = [SelCmd.showPopup] := by
  decide

/-- C5 amended: every evaluation of the pending-to-visible transition shows
the popup only through the delayed show timeout, never synchronously; a new
show timeout is scheduled only when the sampled selection is non-collapsed
and valid, no gesture (mouse selection or drag) is active, and the bounding
rectangle exists and is non-degenerate, and it always carries the 100ms
settle delay; releasing a drag never shows the popup synchronously either —
it only schedules a delayed re-check.  (A show timeout scheduled before a
gesture began can however still fire during the gesture, since the fired
callback does not re-validate — see the counterexample.) -/
theorem pending_to_visible_gate (env : SelEnv) (st : SelState) :
    SelCmd.showPopup ∉ (checkSelectionForPopup env st).cmds ∧
    (∀ t : LiveTimer,
        t ∈ (checkSelectionForPopup env st).state.liveTimers →
        t ∉ st.liveTimers → t.kind = TimerKind.showTimer →
          env.selectionCollapsed = false ∧ env.range ≠ none ∧
          env.validForPopup = true ∧ st.isSelecting = false ∧
          st.isDragging = false ∧
          (∃ rect, env.rect = some rect ∧ rect.width ≠ 0 ∧ rect.height ≠ 0) ∧
          t.delay = 100) ∧
    (handleDragEnd st).cmds = [] ∧
    (∀ t : LiveTimer,
        t ∈ (handleDragEnd st).state.liveTimers → t ∉ st.liveTimers →
          t.kind = TimerKind.selectionCheck ∧ t.delay = 200) := by
  refine ⟨?_, ?_, rfl, ?_⟩
  · unfold checkSelectionForPopup
    by_cases h1 : env.selectionCollapsed = true ∨ env.range = none
    · rw [if_pos h1]
      by_cases h2 : env.popupContainsActive = true
      · rw [if_pos h2]; simp
      · rw [if_neg h2]; simp
    · rw [if_neg h1]
      by_cases h2 : env.validForPopup = true
      · rw [if_pos h2]
        by_cases h3 : st.isSelecting = true ∨ st.isDragging = true
        · rw [if_pos h3]; simp
        · rw [if_neg h3]
          cases hrect : env.rect with
          | none => simp
          | some rect =>
            dsimp only
            by_cases h4 : rect.width = 0 ∨ rect.height = 0
            · rw [if_pos h4]; simp
            · rw [if_neg h4]; simp
      · rw [if_neg h2]; simp
  · intro t ht hnew hkind
    unfold checkSelectionForPopup at ht
    by_cases h1 : env.selectionCollapsed = true ∨ env.range = none
    · rw [if_pos h1] at ht
      by_cases h2 : env.popupContainsActive = true
      · rw [if_pos h2] at ht
        exact absurd (mem_of_mem_clearPendingCheckTimer st t ht) hnew
      · rw [if_neg h2] at ht
        rcases mem_scheduleTimer _ _ _ t ht with hin | heq
        · exact absurd (mem_of_mem_clearPendingCheckTimer st t hin) hnew
        · subst heq
          simp at hkind
    · rw [if_neg h1] at ht
      by_cases h2 : env.validForPopup = true
      · rw [if_pos h2] at ht
        by_cases h3 : st.isSelecting = true ∨ st.isDragging = true
        · rw [if_pos h3] at ht
          exact absurd (mem_of_mem_clearPendingCheckTimer st t ht) hnew
        · rw [if_neg h3] at ht
          cases hrect : env.rect with
          | none =>
            rw [hrect] at ht
            exact absurd (mem_of_mem_clearPendingCheckTimer st t ht) hnew
          | some rect =>
            rw [hrect] at ht
            dsimp only at ht
            by_cases h4 : rect.width = 0 ∨ rect.height = 0
            · rw [if_pos h4] at ht
              exact absurd (mem_of_mem_clearPendingCheckTimer st t ht) hnew
            · rw [if_neg h4] at ht
              rcases mem_scheduleTimer _ _ _ t ht with hin | heq
              · exact absurd (mem_of_mem_clearPendingCheckTimer st t hin) hnew
              · have hcoll : env.selectionCollapsed = false := by
                  cases hco : env.selectionCollapsed
                  · rfl
                  · exact absurd (Or.inl hco) h1
                have hrange : env.range ≠ none := fun hr => h1 (Or.inr hr)
                have hsel : st.isSelecting = false := by
                  cases hse : st.isSelecting
                  · rfl
                  · exact absurd (Or.inl hse) h3
                have hdrag : st.isDragging = false := by
                  cases hdr : st.isDragging
                  · rfl
                  · exact absurd (Or.inr hdr) h3
                subst heq
                exact ⟨hcoll, hrange, h2, hsel, hdrag,
                  ⟨rect, rfl, fun hw => h4 (Or.inl hw),
                    fun hh => h4 (Or.inr hh)⟩, rfl⟩
      · rw [if_neg h2] at ht
        exact absurd (mem_of_mem_clearPendingCheckTimer st t ht) hnew
  · intro t ht hnew
    unfold handleDragEnd at ht
    dsimp only at ht
    rcases List.mem_append.mp ht with hin | hin
    · exact absurd hin hnew
    · have heq := List.mem_singleton.mp hin
      subst heq
      exact ⟨rfl, rfl⟩

/-- C5 witness: in a quiescent state with a settled, valid, non-degenerate
selection, the freshly scheduled show timeout satisfies the whole gate. -/
theorem pending_to_visible_gate_witness :
    envW.selectionCollapsed = false ∧ envW.range ≠ none ∧
    envW.validForPopup = true ∧ stW.isSelecting = false ∧
    stW.isDragging = false ∧
    (∃ rect, envW.rect = some rect ∧ rect.width ≠ 0 ∧ rect.height ≠ 0) ∧
    ({ id := 0, kind := TimerKind.showTimer, delay := 100 } : LiveTimer).delay
      = 100 :=
  (pending_to_visible_gate envW stW).2.1
    { id := 0, kind := TimerKind.showTimer, delay := 100 }
    (by decide) (by decide) (by decide)

/-- C6 counterexample: two consecutive evaluations of
checkSelectionForPopup under show conditions leave two overlapping show
timeouts live at once — the selectionEndTimeout ref is overwritten without
a clearTimeout — and each fired show timeout calls onShowPopup(true)
unconditionally, with no precondition re-validation.  This refutes the
claim that scheduling a new timer of a kind always cancels the previous one
and that the popup is shown by at most one timer. -/
theorem overlapping_show_timers_counterexample :
    (timersOfKind TimerKind.showTimer
        (checkSelectionForPopup
          { range := some { rFrom := 1, rTo := 5 },
            selectionCollapsed := false, popupContainsActive := false,
            validForPopup := true, rect := some { width := 10, height := 4 } }
          (checkSelectionForPopup
            { range := some { rFrom := 1, rTo := 5 },
              selectionCollapsed := false, popupContainsActive := false,
              validForPopup := true,
              rect := some { width := 10, height := 4 } }
            { isSelecting := false, isDragging := false,
              selectionCheckTimer := none, liveTimers := [],
              nextId := 0 }).state).state).length = 2 ∧
    fireShowTimer = [SelCmd.showPopup] := by
  decide

/-- C6 amended: the cancel-before-reschedule discipline holds for the
selection-check timer only: handleSelectionChange cancels the stored
pending selection-check timeout before scheduling a new one, so the
previously stored timeout is no longer live afterwards, and after two
rapid selection-change events every newly live timer is the one scheduled
by the last event.  The show and hide timeouts do not obey this discipline
(see the counterexample): they accumulate and fire without re-validating
their precondition. -/
theorem selectionCheck_cancel_discipline (st : SelState)
    (href : ∀ tid, st.selectionCheckTimer = some tid → tid < st.nextId)
    (hgest : st.isSelecting = false ∧ st.isDragging = false) :
    (handleSelectionChange st).state.selectionCheckTimer = some st.nextId ∧
    (∀ tid, st.selectionCheckTimer = some tid →
       ∀ t ∈ (handleSelectionChange st).state.liveTimers, t.id ≠ tid) ∧
    (∀ t ∈ (handleSelectionChange
        (handleSelectionChange st).state).state.liveTimers,
       t ∉ st.liveTimers → t.id = st.nextId + 1) := by
  have hcond : ¬(st.isSelecting = true ∨ st.isDragging = true) := by
    rw [hgest.1, hgest.2]
    simp
  refine ⟨?_, ?_, ?_⟩
  · rw [handleSelectionChange_state st hcond]
  · intro tid htid t ht
    rw [handleSelectionChange_state st hcond] at ht
    dsimp only at ht
    rcases List.mem_append.mp ht with hin | hin
    · unfold clearPendingCheckTimer at hin
      rw [htid] at hin
      exact ne_of_mem_clearTimer tid _ t hin
    · have heq := List.mem_singleton.mp hin
      subst heq
      have hlt := href tid htid
      dsimp only
      omega
  · intro t ht hnew
    rw [handleSelectionChange_state st hcond] at ht
    rw [handleSelectionChange_state
        { isSelecting := st.isSelecting, isDragging := st.isDragging,
          selectionCheckTimer := some st.nextId,
          liveTimers := (clearPendingCheckTimer st).liveTimers ++
            [{ id := st.nextId, kind := TimerKind.selectionCheck,
               delay := 150 }],
          nextId := st.nextId + 1 }
        hcond] at ht
    dsimp only [clearPendingCheckTimer] at ht
    rcases List.mem_append.mp ht with hin | hin
    · have hin2 := mem_of_mem_clearTimer _ _ t hin
      have hne := ne_of_mem_clearTimer _ _ t hin
      rcases List.mem_append.mp hin2 with hin3 | hin3
      · exact absurd (mem_of_mem_clearPendingCheckTimer st t hin3) hnew
      · have heq := List.mem_singleton.mp hin3
        rw [heq] at hne
        exact absurd rfl hne
    · have heq := List.mem_singleton.mp hin
      subst heq
      rfl

/-- C6 witness: a concrete state holding one stored pending selection-check
timeout with id 0; after the handler runs, the stored timeout is id 1, the
old timeout is gone, and after a second run only the id 2 timeout is newly
live. -/
theorem selectionCheck_cancel_discipline_witness :
    (handleSelectionChange stW6).state.selectionCheckTimer = some stW6.nextId ∧
    ({ id := 1, kind := TimerKind.selectionCheck, delay := 150 }
        : LiveTimer).id ≠ 0 ∧
    ({ id := 2, kind := TimerKind.selectionCheck, delay := 150 }
        : LiveTimer).id = stW6.nextId + 1 :=
  ⟨(selectionCheck_cancel_discipline stW6
      (by intro tid htid; simp [stW6] at htid; simp [stW6]; omega)
      (by decide)).1,
   (selectionCheck_cancel_discipline stW6
      (by intro tid htid; simp [stW6] at htid; simp [stW6]; omega)
      (by decide)).2.1 0 rfl
     { id := 1, kind := TimerKind.selectionCheck, delay := 150 } (by decide),
   (selectionCheck_cancel_discipline stW6
      (by intro tid htid; simp [stW6] at htid; simp [stW6]; omega)
      (by decide)).2.2
     { id := 2, kind := TimerKind.selectionCheck, delay := 150 } (by decide)
     (by decide)⟩

end QuickAI
